import Mathlib

/-!
Verification of the Datastar anchor plugin (two positioning implementations:
the `FloatingUICore` JS geometry engine in `dist/anchor.js` and the CSS-native
positioner with JS fallback in `dist/src/anchor.js`).

Coordinates and pixel quantities are modelled as rationals (`ℚ`), faithful to
JS number arithmetic on the inputs of interest (no overflow/rounding concerns
in the claims).  Strings are modelled as Lean `String`/`List Char`.
-/

/-! ## String utilities mirroring the JS primitives used by the plugin -/

/-- JS truthiness-based `a || b` on strings: the empty string is falsy. -/
def jsOr (a b : String) : String :=
  if a = "" then b else a

/-- Conversion `Option String → String` for `getAttribute` results: `null` behaves as
falsy, so a missing attribute collapses to `""` before a `||` chain. -/
def attrStr (o : Option String) : String :=
  o.getD ""

/-- Greedy span: longest prefix satisfying `p`, with the rest. -/
def spanP (p : Char → Bool) : List Char → List Char × List Char
  | [] => ([], [])
  | c :: cs =>
      if p c then
        let (a, b) := spanP p cs
        (c :: a, b)
      else ([], c :: cs)

/-- Value of a (non-empty) digit string, as in JS `parseFloat` on the
integer part. -/
def digitsToNat (l : List Char) : Nat :=
  l.foldl (fun n c => 10 * n + (c.toNat - ('0').toNat)) 0

/-- JS `String.prototype.trim`: drop whitespace from both ends. -/
def jsTrimL (l : List Char) : List Char :=
  ((l.dropWhile Char.isWhitespace).reverse.dropWhile Char.isWhitespace).reverse

def jsTrim (s : String) : String :=
  String.mk (jsTrimL s.data)

/-- JS `value.replace(/^['"]|['"]$/g, "")`: remove at most one leading and at
most one trailing quote character (single or double). -/
def stripQuotes (s : String) : String :=
  let l := s.data
  let l1 := match l with
    | c :: rest => if c = '\'' || c = '"' then rest else l
    | [] => []
  let l2 := match l1.reverse with
    | c :: rest => if c = '\'' || c = '"' then rest.reverse else l1
    | [] => []
  String.mk l2

/-- JS `"...".split(",")` on the character list. -/
def splitOnComma : List Char → List (List Char)
  | [] => [[]]
  | c :: cs =>
      if c = ',' then [] :: splitOnComma cs
      else
        match splitOnComma cs with
        | h :: t => (c :: h) :: t
        | [] => [[c]]

/-! ## The offset regex `^(\d+(?:\.\d+)?)\s*([a-z%]*)?$` of `parseAnchorConfig` -/

def isUnitChar (c : Char) : Bool :=
  (('a' ≤ c) && (c ≤ 'z')) || c = '%'

/-- Match `\d+(?:\.\d+)?` at the front of the list, returning the parsed
number (exact decimal, as JS `parseFloat` on the matched group) and the rest. -/
def matchNum (cs : List Char) : Option (ℚ × List Char) :=
  let (d1, r1) := spanP Char.isDigit cs
  if d1 = [] then none
  else
    match r1 with
    | '.' :: rest =>
        let (d2, r2) := spanP Char.isDigit rest
        if d2 = [] then none
        else some ((digitsToNat d1 : ℚ) + (digitsToNat d2 : ℚ) / (10 : ℚ) ^ d2.length, r2)
    | _ => some ((digitsToNat d1 : ℚ), r1)

/-- The whole anchored regex `^(\d+(?:\.\d+)?)\s*([a-z%]*)?$`: on success
returns the numeric value and the raw unit group (possibly `""`). -/
def matchOffset (s : String) : Option (ℚ × String) :=
  match matchNum s.data with
  | none => none
  | some (v, r) =>
      let r2 := (spanP Char.isWhitespace r).2
      let (u, r3) := spanP isUnitChar r2
      if r3 = [] then some (v, String.mk u) else none

/-! ## `parseAnchorConfig` (dist/src/anchor.js, lines 11–36) -/

/-- The element's three anchor-related attributes; `none` models a missing
attribute (`getAttribute` returning `null`). -/
structure Attrs where
  anchorAttr : Option String
  placementAttr : Option String
  offsetAttr : Option String
deriving DecidableEq, Repr

structure AnchorConfig where
  target : String
  placement : String
  offsetValue : ℚ
  offsetUnit : String
deriving DecidableEq, Repr

/-- The `cleanValue` local: `value.replace` of the outer-quote regex with `""`, then `trim()`. -/
def cleanValue (value : String) : String :=
  jsTrim (stripQuotes value)

/-- The filtered segments: `cleanValue.split(",").map(p => p.trim()).filter(p => p.length > 0)`. -/
def commaParts (cv : String) : List String :=
  (((splitOnComma cv.data).map jsTrimL).filter (· ≠ [])).map String.mk

/-- The comma-form branch of `parseAnchorConfig`. -/
def parseCommaForm (cv : String) : AnchorConfig :=
  let parts := commaParts cv
  let target := jsOr (parts.getD 0 "") ""
  let placement := jsOr (parts.getD 1 "") "bottom"
  match parts.get? 2 with
  | some p2 =>
      (match matchOffset p2 with
       | some (v, u) => ⟨target, placement, v, jsOr u "px"⟩
       | none => ⟨target, placement, 8, "px"⟩)
  | none => ⟨target, placement, 8, "px"⟩

/-- The attribute-form branch of `parseAnchorConfig`. -/
def parseAttrForm (el : Attrs) (cv : String) : AnchorConfig :=
  let target := jsOr cv (jsOr (attrStr el.anchorAttr) "")
  let placement := jsOr (attrStr el.placementAttr) "bottom"
  let offsetAttr := jsOr (attrStr el.offsetAttr) "8"
  match matchOffset offsetAttr with
  | some (v, u) => ⟨target, placement, v, jsOr u "px"⟩
  | none => ⟨target, placement, 8, jsOr "" "px"⟩

/-- The function `parseAnchorConfig(el, value)` from dist/src/anchor.js. -/
def parseAnchorConfig (el : Attrs) (value : String) : AnchorConfig :=
  let cv := cleanValue value
  if cv.data.contains ',' then parseCommaForm cv
  else parseAttrForm el cv

/-! ## Geometry: rectangles -/

/-- A DOM rect as returned by `getBoundingClientRect` (width/height are the
derived quantities `right - left` / `bottom - top`). -/
structure Rect where
  left : ℚ
  top : ℚ
  right : ℚ
  bottom : ℚ
deriving DecidableEq, Repr

def Rect.width (r : Rect) : ℚ := r.right - r.left

def Rect.height (r : Rect) : ℚ := r.bottom - r.top

/-! ## Substring search and first-occurrence replacement
(JS `String.prototype.includes` / `String.prototype.replace` with a string
pattern, which replaces only the first occurrence). -/

def isPre : List Char → List Char → Bool
  | [], _ => true
  | _ :: _, [] => false
  | p :: ps, c :: cs => p = c && isPre ps cs

/-- Substring test `s.includes(pat)` on char lists. -/
def includesL (s pat : List Char) : Bool :=
  match s with
  | [] => isPre pat []
  | _ :: cs => isPre pat s || includesL cs pat

def includesS (s pat : String) : Bool :=
  includesL s.data pat.data

/-- Replacement `s.replace(pat, rep)` with a string pattern: first occurrence only. -/
def replaceFirstL (s pat rep : List Char) : List Char :=
  match s with
  | [] => if isPre pat [] then rep else []
  | c :: cs => if isPre pat s then rep ++ s.drop pat.length
               else c :: replaceFirstL cs pat rep

def replaceFirstS (s pat rep : String) : String :=
  String.mk (replaceFirstL s.data pat.data rep.data)

/-! ## `FloatingUICore.computePosition` (dist/anchor.js, lines 21–136) -/

namespace FloatingUICore

/-- The base-position `switch (placement)` (lines 31–84): returns the
`finalPlacement` (the input, or `"bottom"` for an unknown placement) and the
pre-flip coordinates. -/
def basePosition (placement : String) (refRect floatingRect : Rect) (offset : ℚ) :
    String × ℚ × ℚ :=
  if placement = "top" then
    (placement, refRect.left + (refRect.width - floatingRect.width) / 2,
      refRect.top - floatingRect.height - offset)
  else if placement = "top-start" then
    (placement, refRect.left, refRect.top - floatingRect.height - offset)
  else if placement = "top-end" then
    (placement, refRect.right - floatingRect.width,
      refRect.top - floatingRect.height - offset)
  else if placement = "bottom" then
    (placement, refRect.left + (refRect.width - floatingRect.width) / 2,
      refRect.bottom + offset)
  else if placement = "bottom-start" then
    (placement, refRect.left, refRect.bottom + offset)
  else if placement = "bottom-end" then
    (placement, refRect.right - floatingRect.width, refRect.bottom + offset)
  else if placement = "left" then
    (placement, refRect.left - floatingRect.width - offset,
      refRect.top + (refRect.height - floatingRect.height) / 2)
  else if placement = "left-start" then
    (placement, refRect.left - floatingRect.width - offset, refRect.top)
  else if placement = "left-end" then
    (placement, refRect.left - floatingRect.width - offset,
      refRect.bottom - floatingRect.height)
  else if placement = "right" then
    (placement, refRect.right + offset,
      refRect.top + (refRect.height - floatingRect.height) / 2)
  else if placement = "right-start" then
    (placement, refRect.right + offset, refRect.top)
  else if placement = "right-end" then
    (placement, refRect.right + offset, refRect.bottom - floatingRect.height)
  else
    ("bottom", refRect.left + (refRect.width - floatingRect.width) / 2,
      refRect.bottom + offset)

/-- The constant `padding = 5` — minimum distance from viewport edge. -/
def padding : ℚ := 5

/-- The horizontal boundary block (lines 88–109): flip `left`↔`right` when the
placement names the overflowed edge, clamp otherwise. -/
def adjustX (fp : String) (x : ℚ) (refRect floatingRect : Rect)
    (offset viewportWidth : ℚ) : String × ℚ :=
  if x < padding then
    if includesS fp "left" then
      (replaceFirstS fp "left" "right", refRect.right + offset)
    else (fp, padding)
  else if x + floatingRect.width > viewportWidth - padding then
    if includesS fp "right" then
      (replaceFirstS fp "right" "left",
        refRect.left - floatingRect.width - offset)
    else (fp, viewportWidth - floatingRect.width - padding)
  else (fp, x)

/-- The vertical boundary block (lines 110–131). -/
def adjustY (fp : String) (y : ℚ) (refRect floatingRect : Rect)
    (offset viewportHeight : ℚ) : String × ℚ :=
  if y < padding then
    if includesS fp "top" then
      (replaceFirstS fp "top" "bottom", refRect.bottom + offset)
    else (fp, padding)
  else if y + floatingRect.height > viewportHeight - padding then
    if includesS fp "bottom" then
      (replaceFirstS fp "bottom" "top",
        refRect.top - floatingRect.height - offset)
    else (fp, viewportHeight - floatingRect.height - padding)
  else (fp, y)

/-- The engine `FloatingUICore.computePosition`: base position, per-axis boundary
handling, then scroll offset.  Returns the final `{x, y}`. -/
def computePosition (placement : String) (offset : ℚ) (refRect floatingRect : Rect)
    (viewportWidth viewportHeight scrollX scrollY : ℚ) : ℚ × ℚ :=
  let b := basePosition placement refRect floatingRect offset
  let ax := adjustX b.1 b.2.1 refRect floatingRect offset viewportWidth
  let ay := adjustY ax.1 b.2.2 refRect floatingRect offset viewportHeight
  (ax.2 + scrollX, ay.2 + scrollY)

end FloatingUICore

/-! ## `generateAnchorName` (dist/src/anchor.js, lines 8–10) -/

def isAlnum (c : Char) : Bool :=
  (('a' ≤ c) && (c ≤ 'z')) || (('A' ≤ c) && (c ≤ 'Z')) || (('0' ≤ c) && (c ≤ '9'))

/-- Sanitizing map `targetId.replace` of the non-alphanumeric class with `"-"`. -/
def sanitizeId (s : String) : String :=
  String.mk (s.data.map (fun c => if isAlnum c then c else '-'))

/-- The function `generateAnchorName(targetId)`. -/
def generateAnchorName (targetId : String) : String :=
  "--anchor-" ++ sanitizeId targetId

/-! ## `getPositionTryOptions` (dist/src/anchor.js, lines 112–129) -/

/-- The `fallbacks` table, including the default list for an unknown
placement. -/
def fallbacksFor (placement : String) : List String :=
  if placement = "top" then ["bottom", "left", "right"]
  else if placement = "top-start" then ["bottom-start", "top-end", "bottom-end"]
  else if placement = "top-end" then ["bottom-end", "top-start", "bottom-start"]
  else if placement = "bottom" then ["top", "left", "right"]
  else if placement = "bottom-start" then ["top-start", "bottom-end", "top-end"]
  else if placement = "bottom-end" then ["top-end", "bottom-start", "top-start"]
  else if placement = "left" then ["right", "top", "bottom"]
  else if placement = "left-start" then ["right-start", "left-end", "right-end"]
  else if placement = "left-end" then ["right-end", "left-start", "right-start"]
  else if placement = "right" then ["left", "top", "bottom"]
  else if placement = "right-start" then ["left-start", "right-end", "left-end"]
  else if placement = "right-end" then ["left-end", "right-start", "left-start"]
  else ["bottom", "top", "left", "right"]

/-- The function `getPositionTryOptions(placement)`: the emitted
`position-try-options` CSS value. -/
def getPositionTryOptions (placement : String) : String :=
  String.intercalate ", " ((fallbacksFor placement).map (fun p => "flip-" ++ p))

/-! ## Unit conversion (the `switch (offsetUnit)` in `applyFallbackPositioning`,
dist/src/anchor.js lines 133–148) -/

/-- The environment quantities the conversion reads: root font-size, the
floating element's computed font-size, and the viewport dimensions. -/
structure UnitCtx where
  rootFontSize : ℚ
  elFontSize : ℚ
  innerWidth : ℚ
  innerHeight : ℚ
deriving DecidableEq, Repr

/-- Value of `offsetPx` after the `switch (offsetUnit)`: `rem`/`em` scale by font
sizes, `vw`/`vh` by viewport fractions, and every other unit (including `px`
and `%`) falls through leaving the raw value. -/
def offsetToPx (value : ℚ) (unit : String) (ctx : UnitCtx) : ℚ :=
  if unit = "rem" then value * ctx.rootFontSize
  else if unit = "em" then value * ctx.elFontSize
  else if unit = "vw" then value / 100 * ctx.innerWidth
  else if unit = "vh" then value / 100 * ctx.innerHeight
  else value

/-! ## The placement switch of `applyFallbackPositioning`
(dist/src/anchor.js lines 149–215): pre-scroll coordinates plus the
`translate` style value. -/

def fallbackPosition (placement : String) (targetRect : Rect) (offsetPx : ℚ) :
    ℚ × ℚ × String :=
  if placement = "top" then
    (targetRect.left + targetRect.width / 2, targetRect.top - offsetPx, "-50% -100%")
  else if placement = "top-start" then
    (targetRect.left, targetRect.top - offsetPx, "0 -100%")
  else if placement = "top-end" then
    (targetRect.right, targetRect.top - offsetPx, "-100% -100%")
  else if placement = "bottom" then
    (targetRect.left + targetRect.width / 2, targetRect.bottom + offsetPx, "-50% 0")
  else if placement = "bottom-start" then
    (targetRect.left, targetRect.bottom + offsetPx, "0 0")
  else if placement = "bottom-end" then
    (targetRect.right, targetRect.bottom + offsetPx, "-100% 0")
  else if placement = "left" then
    (targetRect.left - offsetPx, targetRect.top + targetRect.height / 2, "-100% -50%")
  else if placement = "left-start" then
    (targetRect.left - offsetPx, targetRect.top, "-100% 0")
  else if placement = "left-end" then
    (targetRect.left - offsetPx, targetRect.bottom, "-100% -100%")
  else if placement = "right" then
    (targetRect.right + offsetPx, targetRect.top + targetRect.height / 2, "0 -50%")
  else if placement = "right-start" then
    (targetRect.right + offsetPx, targetRect.top, "0 0")
  else if placement = "right-end" then
    (targetRect.right + offsetPx, targetRect.bottom, "0 -100%")
  else
    (targetRect.left + targetRect.width / 2, targetRect.bottom + offsetPx, "-50% 0")

/-! ## `getAnchorCSS` (dist/src/anchor.js, lines 37–111) -/

/-- Rendering of a JS number in a template literal; abstracted as Lean's
`toString` on the rational (the claims never inspect these rendered strings). -/
def numStr (v : ℚ) : String := toString v

/-- The `styles` object of `getAnchorCSS`, as an ordered property list.
`offset` is the template string `${offsetValue}${offsetUnit}`. -/
def getAnchorCSS (anchorName placement : String) (offsetValue : ℚ)
    (offsetUnit : String) : List (String × String) :=
  let offset := numStr offsetValue ++ offsetUnit
  let base := [("position", "absolute"), ("position-anchor", anchorName),
               ("position-try-options", getPositionTryOptions placement)]
  if placement = "top" then
    base ++ [("bottom", "anchor(top)"), ("left", "anchor(center)"),
             ("translate", "-50% -" ++ offset)]
  else if placement = "top-start" then
    base ++ [("bottom", "anchor(top)"), ("left", "anchor(left)"),
             ("translate", "0 -" ++ offset)]
  else if placement = "top-end" then
    base ++ [("bottom", "anchor(top)"), ("right", "anchor(right)"),
             ("translate", "0 -" ++ offset)]
  else if placement = "bottom" then
    base ++ [("top", "anchor(bottom)"), ("left", "anchor(center)"),
             ("translate", "-50% " ++ offset)]
  else if placement = "bottom-start" then
    base ++ [("top", "anchor(bottom)"), ("left", "anchor(left)"),
             ("translate", "0 " ++ offset)]
  else if placement = "bottom-end" then
    base ++ [("top", "anchor(bottom)"), ("right", "anchor(right)"),
             ("translate", "0 " ++ offset)]
  else if placement = "left" then
    base ++ [("right", "anchor(left)"), ("top", "anchor(center)"),
             ("translate", "-" ++ offset ++ " -50%")]
  else if placement = "left-start" then
    base ++ [("right", "anchor(left)"), ("top", "anchor(top)"),
             ("translate", "-" ++ offset ++ " 0")]
  else if placement = "left-end" then
    base ++ [("right", "anchor(left)"), ("bottom", "anchor(bottom)"),
             ("translate", "-" ++ offset ++ " 0")]
  else if placement = "right" then
    base ++ [("left", "anchor(right)"), ("top", "anchor(center)"),
             ("translate", offset ++ " -50%")]
  else if placement = "right-start" then
    base ++ [("left", "anchor(right)"), ("top", "anchor(top)"),
             ("translate", offset ++ " 0")]
  else if placement = "right-end" then
    base ++ [("left", "anchor(right)"), ("bottom", "anchor(bottom)"),
             ("translate", offset ++ " 0")]
  else
    base ++ [("top", "anchor(bottom)"), ("left", "anchor(center)"),
             ("translate", "-50% " ++ offset)]

/-! ## A small DOM model and `onLoad` (dist/src/anchor.js, lines 235–273) -/

/-- A DOM element: its `id`, the anchor-related attributes, and its inline
style property list. -/
structure Elem where
  id : String
  attrs : Attrs
  styles : List (String × String)
deriving DecidableEq, Repr

def defaultElem : Elem := ⟨"", ⟨none, none, none⟩, []⟩

/-- The document: an indexed list of elements. -/
structure Dom where
  elems : List Elem
deriving DecidableEq, Repr

def updAt : List Elem → Nat → (Elem → Elem) → List Elem
  | [], _, _ => []
  | e :: es, 0, f => f e :: es
  | e :: es, n + 1, f => e :: updAt es n f

def Dom.update (d : Dom) (i : Nat) (f : Elem → Elem) : Dom :=
  ⟨updAt d.elems i f⟩

/-- Setting one inline style property (replace if present, append otherwise). -/
def styleSet (st : List (String × String)) (k v : String) : List (String × String) :=
  if st.any (fun p => p.1 = k) then
    st.map (fun p => if p.1 = k then (k, v) else p)
  else st ++ [(k, v)]

/-- Assignment `Object.assign(el.style, styles)`: set each property in order. -/
def styleAssign (st : List (String × String)) (new : List (String × String)) :
    List (String × String) :=
  new.foldl (fun acc p => styleSet acc p.1 p.2) st

/-- Lookup `document.getElementById` (null for the empty id, as in a browser). -/
def getElementById (d : Dom) (s : String) : Option Nat :=
  if s = "" then none else d.elems.findIdx? (fun e => e.id = s)

/-- The target lookup of `onLoad`: `getElementById` for `#`-prefixed targets
(`target.slice(1)`), `document.querySelector` (the `query` parameter)
otherwise. -/
def resolveTarget (query : Dom → String → Option Nat) (d : Dom) (target : String) :
    Option Nat :=
  match target.data with
  | '#' :: rest => getElementById d (String.mk rest)
  | _ => query d target

/-- The plugin hook `onLoad` on a context holding `el` and `value`.  Browser primitives are parameters: `query` models
`document.querySelector` for non-`#` selectors, `cssSupports` the
`supportsCSSAnchor()` probe, `now` is `Date.now()`, `rectOf` is
`getBoundingClientRect` of an element, `ctx`/`scrollX`/`scrollY` the viewport
and scroll state read by the fallback path.  Returns the updated document. -/
def onLoad (query : Dom → String → Option Nat) (cssSupports : Bool) (now : Nat)
    (rectOf : Nat → Rect) (ctx : UnitCtx) (scrollX scrollY : ℚ)
    (el : Nat) (value : String) (d : Dom) : Dom :=
  let cfg := parseAnchorConfig (d.elems.getD el defaultElem).attrs value
  if cfg.target = "" then d
  else
    match resolveTarget query d cfg.target with
    | none => d
    | some t =>
        let tElem := d.elems.getD t defaultElem
        let targetId := if tElem.id = "" then "anchor-" ++ toString now else tElem.id
        let d1 := if tElem.id = "" then d.update t (fun e => { e with id := targetId }) else d
        if cssSupports then
          let anchorName := generateAnchorName targetId
          let d2 := d1.update t (fun e => { e with styles := styleSet e.styles "anchor-name" anchorName })
          let anchorStyles := getAnchorCSS anchorName cfg.placement cfg.offsetValue cfg.offsetUnit
          d2.update el (fun e => { e with styles := styleAssign e.styles anchorStyles })
        else
          let offsetPx := offsetToPx cfg.offsetValue cfg.offsetUnit ctx
          let fp := fallbackPosition cfg.placement (rectOf t) offsetPx
          d1.update el (fun e =>
            let s1 := styleSet e.styles "translate" fp.2.2
            let s2 := styleSet s1 "position" "absolute"
            let s3 := styleSet s2 "left" (numStr (fp.1 + scrollX) ++ "px")
            let s4 := styleSet s3 "top" (numStr (fp.2.1 + scrollY) ++ "px")
            { e with styles := s4 })


/-! ## The position-try selection policy (spec §4.1, claim C1) -/

/-- Modelled from the spec: the fit test of the viewport-flip policy — the
floating rect at position `(x, y)` lies within
`[padding, viewportDimension - padding]` on both axes.  The selection itself
is performed by the browser's `position-try-options` engine; the repository
only emits the candidate list (`getPositionTryOptions`), so the check is
modelled from the spec's words. -/
def fits (x y : ℚ) (floatingRect : Rect) (viewportWidth viewportHeight pad : ℚ) : Bool :=
  decide (pad ≤ x) && decide (x + floatingRect.width ≤ viewportWidth - pad) &&
  decide (pad ≤ y) && decide (y + floatingRect.height ≤ viewportHeight - pad)

/-- The pre-flip position a placement denotes (the §4.1 per-placement
formula, i.e. the base-position switch of the geometry engine). -/
def posOf (placement : String) (refRect floatingRect : Rect) (offset : ℚ) : ℚ × ℚ :=
  (FloatingUICore.basePosition placement refRect floatingRect offset).2

/-- Modelled from the spec: the viewport-flip fallback selection — compute the
primary placement's position; if it fits, keep it; otherwise take the first
candidate of the placement's fallback list (the source's `fallbacks` table in
`getPositionTryOptions`) whose position fits; if none fits, keep the primary
placement's position unchanged. -/
def positionWithFallback (placement : String) (refRect floatingRect : Rect)
    (offset viewportWidth viewportHeight pad : ℚ) : ℚ × ℚ :=
  let prim := posOf placement refRect floatingRect offset
  if fits prim.1 prim.2 floatingRect viewportWidth viewportHeight pad then prim
  else
    match (fallbacksFor placement).find? (fun p =>
        fits (posOf p refRect floatingRect offset).1
          (posOf p refRect floatingRect offset).2
          floatingRect viewportWidth viewportHeight pad) with
    | some p => posOf p refRect floatingRect offset
    | none => prim

/-! ## Claims -/

/-- C2: for every reference rect, floating rect and pixel offset, the pre-flip
`(x, y)` of `computePosition` matches the fixed per-placement formula: the four
center-aligned placements center the floating element on the cross-axis,
`-start` placements align to the leading edge, `-end` placements to the
trailing edge. -/
theorem basePosition_formulas (r f : Rect) (o : ℚ) :
    (FloatingUICore.basePosition "top" r f o).2
      = (r.left + (r.width - f.width) / 2, r.top - f.height - o) ∧
    (FloatingUICore.basePosition "top-start" r f o).2
      = (r.left, r.top - f.height - o) ∧
    (FloatingUICore.basePosition "top-end" r f o).2
      = (r.right - f.width, r.top - f.height - o) ∧
    (FloatingUICore.basePosition "bottom" r f o).2
      = (r.left + (r.width - f.width) / 2, r.bottom + o) ∧
    (FloatingUICore.basePosition "bottom-start" r f o).2
      = (r.left, r.bottom + o) ∧
    (FloatingUICore.basePosition "bottom-end" r f o).2
      = (r.right - f.width, r.bottom + o) ∧
    (FloatingUICore.basePosition "left" r f o).2
      = (r.left - f.width - o, r.top + (r.height - f.height) / 2) ∧
    (FloatingUICore.basePosition "left-start" r f o).2
      = (r.left - f.width - o, r.top) ∧
    (FloatingUICore.basePosition "left-end" r f o).2
      = (r.left - f.width - o, r.bottom - f.height) ∧
    (FloatingUICore.basePosition "right" r f o).2
      = (r.right + o, r.top + (r.height - f.height) / 2) ∧
    (FloatingUICore.basePosition "right-start" r f o).2
      = (r.right + o, r.top) ∧
    (FloatingUICore.basePosition "right-end" r f o).2
      = (r.right + o, r.bottom - f.height) := by
  refine ⟨rfl, rfl, rfl, rfl, rfl, rfl, rfl, rfl, rfl, rfl, rfl, rfl⟩

/-- C3: for reference rect `{left:100, top:100, right:200, bottom:130}`, a
50×20 floating rect, placement `"top"` and offset 10, the pre-flip position is
`(125, 70)`; with a 1024×768 viewport and zero scroll the final position is
the same (no flip or clamp fires). -/
theorem computePosition_example :
    (FloatingUICore.basePosition "top" ⟨100, 100, 200, 130⟩ ⟨0, 0, 50, 20⟩ 10)
      = ("top", 125, 70) ∧
    FloatingUICore.computePosition "top" 10 ⟨100, 100, 200, 130⟩ ⟨0, 0, 50, 20⟩
      1024 768 0 0 = (125, 70) := by
  have hb : FloatingUICore.basePosition "top" ⟨100, 100, 200, 130⟩ ⟨0, 0, 50, 20⟩ 10
      = ("top", 125, 70) := by
    show ("top", (100 : ℚ) + (((200 : ℚ) - 100) - ((50 : ℚ) - 0)) / 2,
      (100 : ℚ) - ((20 : ℚ) - 0) - 10) = ("top", 125, 70)
    norm_num
  have hx : FloatingUICore.adjustX "top" 125 ⟨100, 100, 200, 130⟩ ⟨0, 0, 50, 20⟩ 10 1024
      = ("top", 125) := by
    unfold FloatingUICore.adjustX
    norm_num [FloatingUICore.padding, Rect.width]
  have hy : FloatingUICore.adjustY "top" 70 ⟨100, 100, 200, 130⟩ ⟨0, 0, 50, 20⟩ 10 768
      = ("top", 70) := by
    unfold FloatingUICore.adjustY
    norm_num [FloatingUICore.padding, Rect.height]
  refine ⟨hb, ?_⟩
  simp only [FloatingUICore.computePosition, hb, hx, hy]
  norm_num

/-- C4: unit conversion of offsets to pixels — `px` is the identity, `rem`
multiplies by the root font-size (so `1rem` is exactly the root font-size),
`em` multiplies by the floating element's computed font-size, `vw`/`vh` give
`value/100` of the viewport width resp. height (so `50vw` is exactly half the
viewport width), and `%` leaves the raw number unchanged. -/
theorem offsetToPx_units (v : ℚ) (ctx : UnitCtx) :
    offsetToPx v "px" ctx = v ∧
    offsetToPx v "rem" ctx = v * ctx.rootFontSize ∧
    offsetToPx 1 "rem" ctx = ctx.rootFontSize ∧
    offsetToPx v "em" ctx = v * ctx.elFontSize ∧
    offsetToPx v "vw" ctx = v / 100 * ctx.innerWidth ∧
    offsetToPx 50 "vw" ctx = ctx.innerWidth / 2 ∧
    offsetToPx v "vh" ctx = v / 100 * ctx.innerHeight ∧
    offsetToPx v "%" ctx = v := by
  refine ⟨rfl, rfl, ?_, rfl, rfl, ?_, rfl, rfl⟩
  · show (1 : ℚ) * ctx.rootFontSize = ctx.rootFontSize
    ring
  · show (50 : ℚ) / 100 * ctx.innerWidth = ctx.innerWidth / 2
    ring

/-- Helper: the sanitizing character map is the identity on a list of
alphanumeric characters. -/
theorem sanitize_map_id (l : List Char) (h : l.all isAlnum = true) :
    l.map (fun c => if isAlnum c then c else '-') = l := by
  induction l with
  | nil => rfl
  | cons c cs ih =>
      simp only [List.all_cons, Bool.and_eq_true] at h
      simp [h.1, ih h.2]

/-- C8 counterexample: `generateAnchorName` is not injective on DOM ids — the
distinct ids `"a.b"` and `"a-b"` collide. -/
theorem generateAnchorName_collision :
    generateAnchorName "a.b" = generateAnchorName "a-b" ∧ "a.b" ≠ "a-b" := by
  decide

/-- C8 (amended): `generateAnchorName` is a deterministic function of the DOM
id — `"--anchor-"` followed by the id with every character outside
`[a-zA-Z0-9]` replaced by `"-"` — and distinct DOM ids consisting only of
characters in `[a-zA-Z0-9]` yield distinct anchor identifiers. -/
theorem generateAnchorName_spec (id1 id2 : String) :
    generateAnchorName id1 = "--anchor-" ++ sanitizeId id1 ∧
    (sanitizeId id1).data = id1.data.map (fun c => if isAlnum c then c else '-') ∧
    (id1.data.all isAlnum = true → id2.data.all isAlnum = true →
      generateAnchorName id1 = generateAnchorName id2 → id1 = id2) := by
  refine ⟨rfl, rfl, fun h1 h2 heq => ?_⟩
  have hd := congrArg String.data heq
  simp only [generateAnchorName, String.data_append] at hd
  have hs : (sanitizeId id1).data = (sanitizeId id2).data :=
    List.append_cancel_left hd
  simp only [sanitizeId, sanitize_map_id id1.data h1, sanitize_map_id id2.data h2] at hs
  exact String.ext hs

/-- C8 witness: the amended injectivity applied at the concrete alnum ids
`"btn1"` and `"btn2"`. -/
theorem generateAnchorName_spec_witness :
    generateAnchorName "btn1" = "--anchor-" ++ sanitizeId "btn1" ∧
    ("btn1".data.all isAlnum = true → "btn2".data.all isAlnum = true →
      generateAnchorName "btn1" = generateAnchorName "btn2" → "btn1" = "btn2") :=
  ⟨(generateAnchorName_spec "btn1" "btn2").1,
   (generateAnchorName_spec "btn1" "btn2").2.2⟩

/-- Helper: selecting a branch of `parseAnchorConfig` from the comma test. -/
theorem parseAnchorConfig_comma_branch (el : Attrs) (v : String)
    (h : (cleanValue v).data.contains ',' = true) :
    parseAnchorConfig el v = parseCommaForm (cleanValue v) := by
  simp only [parseAnchorConfig, h]
  rfl

/-- Helper: the attribute branch of `parseAnchorConfig`. -/
theorem parseAnchorConfig_attr_branch (el : Attrs) (v : String)
    (h : (cleanValue v).data.contains ',' = false) :
    parseAnchorConfig el v = parseAttrForm el (cleanValue v) := by
  simp only [parseAnchorConfig, h]
  rfl

/-- Helper: the attribute branch takes its placement from the
`data-anchor-placement` attribute, defaulting to `"bottom"`. -/
theorem parseAttrForm_placement (el : Attrs) (cv : String) :
    (parseAttrForm el cv).placement = jsOr (attrStr el.placementAttr) "bottom" := by
  unfold parseAttrForm
  cases h : matchOffset (jsOr (attrStr el.offsetAttr) "8") with
  | none => simp [h]
  | some p => obtain ⟨a, b⟩ := p; simp [h]

/-- Helper: the comma branch takes its placement from the second filtered
segment, defaulting to `"bottom"`. -/
theorem parseCommaForm_placement (cv : String) :
    (parseCommaForm cv).placement = jsOr ((commaParts cv).getD 1 "") "bottom" := by
  cases h2 : (commaParts cv).get? 2 with
  | none => simp only [parseCommaForm, h2]
  | some p2 =>
      cases h3 : matchOffset p2 with
      | none => simp only [parseCommaForm, h2, h3]
      | some p => obtain ⟨a, b⟩ := p; simp only [parseCommaForm, h2, h3]

/-- Helper: a list all of whose characters satisfy `p` spans entirely. -/
theorem spanP_all (p : Char → Bool) (l : List Char) (h : l.all p = true) :
    spanP p l = (l, []) := by
  induction l with
  | nil => rfl
  | cons c cs ih =>
      simp only [List.all_cons, Bool.and_eq_true] at h
      simp [spanP, h.1, ih h.2]

/-- Helper: a non-empty all-digits string matches the offset regex with an
empty unit group and its decimal value. -/
theorem matchOffset_digits (s : String) (h1 : s ≠ "")
    (h2 : s.data.all Char.isDigit = true) :
    matchOffset s = some ((digitsToNat s.data : ℚ), "") := by
  have hd : s.data ≠ [] := by
    intro hc
    exact h1 (String.ext (by rw [hc]))
  have hs := spanP_all Char.isDigit s.data h2
  simp only [matchOffset, matchNum, hs, hd, if_false]
  rfl

/-- Helper: the attribute branch's offset as a function of the offset
attribute's regex match. -/
theorem parseAttrForm_offset (el : Attrs) (cv : String) :
    ((parseAttrForm el cv).offsetValue, (parseAttrForm el cv).offsetUnit) =
      match matchOffset (jsOr (attrStr el.offsetAttr) "8") with
      | some (v, u) => (v, jsOr u "px")
      | none => ((8 : ℚ), "px") := by
  unfold parseAttrForm
  cases h : matchOffset (jsOr (attrStr el.offsetAttr) "8") with
  | none =>
      simp only [h]
      simp [jsOr]
  | some p => obtain ⟨a, b⟩ := p; simp [h]

/-- Helper: the comma branch's offset as a function of the third filtered
segment's regex match. -/
theorem parseCommaForm_offset (cv : String) :
    ((parseCommaForm cv).offsetValue, (parseCommaForm cv).offsetUnit) =
      match (commaParts cv).get? 2 with
      | some p2 =>
          (match matchOffset p2 with
           | some (v, u) => (v, jsOr u "px")
           | none => ((8 : ℚ), "px"))
      | none => ((8 : ℚ), "px") := by
  cases h2 : (commaParts cv).get? 2 with
  | none => simp only [parseCommaForm, h2]
  | some p2 =>
      cases h3 : matchOffset p2 with
      | none => simp only [parseCommaForm, h2, h3]
      | some p => obtain ⟨a, b⟩ := p; simp only [parseCommaForm, h2, h3]

/-- Helper: the literal default offset attribute `"8"` parses to 8 with an
empty unit group. -/
theorem matchOffset_eight : matchOffset "8" = some (8, "") := by
  have h := matchOffset_digits "8" (by decide) (by decide)
  rw [h]
  norm_num [show digitsToNat "8".data = 8 from by decide]

/-- C5: resolver defaults and malformed-offset handling — parsing is total
(the embedding is a total function); placement defaults to `"bottom"` when
unspecified in either surface form; a missing or non-matching offset yields
the default `8`/`"px"`; and a bare numeric offset string is accepted with the
unit defaulting to `"px"`. -/
theorem parseAnchorConfig_defaults (el : Attrs) (v s : String) :
    ((cleanValue v).data.contains ',' = false → el.placementAttr = none →
      (parseAnchorConfig el v).placement = "bottom") ∧
    ((cleanValue v).data.contains ',' = true →
      (commaParts (cleanValue v)).length ≤ 1 →
      (parseAnchorConfig el v).placement = "bottom") ∧
    ((cleanValue v).data.contains ',' = false → el.offsetAttr = none →
      (parseAnchorConfig el v).offsetValue = 8 ∧
        (parseAnchorConfig el v).offsetUnit = "px") ∧
    ((cleanValue v).data.contains ',' = false → el.offsetAttr = some s →
      s ≠ "" → matchOffset s = none →
      (parseAnchorConfig el v).offsetValue = 8 ∧
        (parseAnchorConfig el v).offsetUnit = "px") ∧
    ((cleanValue v).data.contains ',' = true →
      (commaParts (cleanValue v)).get? 2 = none →
      (parseAnchorConfig el v).offsetValue = 8 ∧
        (parseAnchorConfig el v).offsetUnit = "px") ∧
    ((cleanValue v).data.contains ',' = true →
      (commaParts (cleanValue v)).get? 2 = some s → matchOffset s = none →
      (parseAnchorConfig el v).offsetValue = 8 ∧
        (parseAnchorConfig el v).offsetUnit = "px") ∧
    (s ≠ "" → s.data.all Char.isDigit = true →
      matchOffset s = some ((digitsToNat s.data : ℚ), "")) ∧
    ((cleanValue v).data.contains ',' = false → el.offsetAttr = some s →
      s ≠ "" → s.data.all Char.isDigit = true →
      (parseAnchorConfig el v).offsetValue = (digitsToNat s.data : ℚ) ∧
        (parseAnchorConfig el v).offsetUnit = "px") := by
  refine ⟨?_, ?_, ?_, ?_, ?_, ?_, ?_, ?_⟩
  · intro hc hp
    rw [parseAnchorConfig_attr_branch el v hc, parseAttrForm_placement]
    simp [hp, attrStr, jsOr]
  · intro hc hlen
    rw [parseAnchorConfig_comma_branch el v hc, parseCommaForm_placement]
    have hg : (commaParts (cleanValue v)).getD 1 "" = "" := by
      simp [List.getD_eq_getElem?_getD, List.getElem?_eq_none hlen]
    rw [hg]
    rfl
  · intro hc ho
    have hh := parseAttrForm_offset el (cleanValue v)
    rw [parseAnchorConfig_attr_branch el v hc]
    rw [ho] at hh
    rw [show jsOr (attrStr (none : Option String)) "8" = "8" from rfl] at hh
    rw [matchOffset_eight] at hh
    simp [jsOr] at hh
    exact ⟨hh.1, hh.2⟩
  · intro hc ho hs hm
    have hh := parseAttrForm_offset el (cleanValue v)
    rw [parseAnchorConfig_attr_branch el v hc]
    rw [ho] at hh
    rw [show jsOr (attrStr (some s)) "8" = s from by simp [jsOr, attrStr, hs]] at hh
    rw [hm] at hh
    simp at hh
    exact ⟨hh.1, hh.2⟩
  · intro hc h2
    have hh := parseCommaForm_offset (cleanValue v)
    rw [parseAnchorConfig_comma_branch el v hc]
    rw [h2] at hh
    simp at hh
    exact ⟨hh.1, hh.2⟩
  · intro hc h2 h3
    have hh := parseCommaForm_offset (cleanValue v)
    rw [parseAnchorConfig_comma_branch el v hc]
    rw [h2] at hh
    simp [h3] at hh
    exact ⟨hh.1, hh.2⟩
  · exact matchOffset_digits s
  · intro hc ho hs hdig
    have hh := parseAttrForm_offset el (cleanValue v)
    rw [parseAnchorConfig_attr_branch el v hc]
    rw [ho] at hh
    rw [show jsOr (attrStr (some s)) "8" = s from by simp [jsOr, attrStr, hs]] at hh
    rw [matchOffset_digits s hs hdig] at hh
    simp [jsOr] at hh
    exact ⟨hh.1, hh.2⟩

/-- C5 witness: the defaults at concrete inputs — no placement attribute and a
bare numeric offset `"10"` give placement `"bottom"` and unit `"px"`; the
malformed offset `"abc"` falls back to `8`/`"px"`. -/
theorem parseAnchorConfig_defaults_witness :
    (parseAnchorConfig ⟨none, none, some "10"⟩ "'#t'").placement = "bottom" ∧
    (parseAnchorConfig ⟨none, none, some "10"⟩ "'#t'").offsetValue
      = (digitsToNat "10".data : ℚ) ∧
    (parseAnchorConfig ⟨none, none, some "10"⟩ "'#t'").offsetUnit = "px" ∧
    (parseAnchorConfig ⟨none, none, some "abc"⟩ "'#t'").offsetValue = 8 ∧
    (parseAnchorConfig ⟨none, none, some "abc"⟩ "'#t'").offsetUnit = "px" := by
  have h1 := parseAnchorConfig_defaults ⟨none, none, some "10"⟩ "'#t'" "10"
  have h2 := parseAnchorConfig_defaults ⟨none, none, some "abc"⟩ "'#t'" "abc"
  have hbare := h1.2.2.2.2.2.2.2 (by decide) rfl (by decide) (by decide)
  have hmal := h2.2.2.2.1 (by decide) rfl (by decide) (by decide)
  exact ⟨h1.1 (by decide) rfl, hbare.1, hbare.2, hmal.1, hmal.2⟩

/-- C6: whenever the cleaned `data-anchor` value contains a comma, placement
and offset come from the comma-delimited segments and the separate attributes
are ignored (the result does not depend on them); without a comma the
separate attributes are consulted. -/
theorem parseAnchorConfig_precedence (el el2 : Attrs) (v : String) :
    ((cleanValue v).data.contains ',' = true →
      parseAnchorConfig el v = parseCommaForm (cleanValue v) ∧
      parseAnchorConfig el v = parseAnchorConfig el2 v) ∧
    ((cleanValue v).data.contains ',' = false →
      parseAnchorConfig el v = parseAttrForm el (cleanValue v) ∧
      (parseAnchorConfig el v).placement = jsOr (attrStr el.placementAttr) "bottom") := by
  constructor
  · intro h
    refine ⟨parseAnchorConfig_comma_branch el v h, ?_⟩
    rw [parseAnchorConfig_comma_branch el v h, parseAnchorConfig_comma_branch el2 v h]
  · intro h
    refine ⟨parseAnchorConfig_attr_branch el v h, ?_⟩
    rw [parseAnchorConfig_attr_branch el v h, parseAttrForm_placement]

/-- C6 witness: with both a comma-form value and separate
placement/offset attributes present, the comma form wins and the attributes
are ignored. -/
theorem parseAnchorConfig_precedence_witness :
    parseAnchorConfig ⟨none, some "top", some "20px"⟩ "'#t, left, 3px'"
      = parseAnchorConfig ⟨none, none, none⟩ "'#t, left, 3px'" ∧
    parseAnchorConfig ⟨none, some "top", some "20px"⟩ "'#t, left, 3px'"
      = parseCommaForm (cleanValue "'#t, left, 3px'") :=
  have h := parseAnchorConfig_precedence ⟨none, some "top", some "20px"⟩
    ⟨none, none, none⟩ "'#t, left, 3px'"
  ⟨(h.1 (by decide)).2, (h.1 (by decide)).1⟩

/-- C10: blank comma segments are filtered before positional assignment — in
`"#t, , 10px"` the offset literal `"10px"` becomes the placement and the
offset keeps its 8px default; a trailing lone comma (`"#t,"`) still selects
the comma branch with placement defaulting to `"bottom"`. -/
theorem parseAnchorConfig_blank_segments (el : Attrs) :
    commaParts (cleanValue "#t, , 10px") = ["#t", "10px"] ∧
    parseAnchorConfig el "#t, , 10px" = ⟨"#t", "10px", 8, "px"⟩ ∧
    parseAnchorConfig el "#t," = ⟨"#t", "bottom", 8, "px"⟩ := by
  refine ⟨by decide, ?_, ?_⟩
  · rw [parseAnchorConfig_comma_branch el _ (by decide)]
    decide
  · rw [parseAnchorConfig_comma_branch el _ (by decide)]
    decide

/-- Helper: left-edge clamp of the horizontal boundary block. -/
theorem adjustX_clamp_left (fp : String) (x : ℚ) (r f : Rect) (o vw : ℚ)
    (h1 : x < 5) (h2 : includesS fp "left" = false) :
    FloatingUICore.adjustX fp x r f o vw = (fp, 5) := by
  simp [FloatingUICore.adjustX, FloatingUICore.padding, h1, h2]

/-- Helper: left-edge flip of the horizontal boundary block. -/
theorem adjustX_flip_left (fp : String) (x : ℚ) (r f : Rect) (o vw : ℚ)
    (h1 : x < 5) (h2 : includesS fp "left" = true) :
    FloatingUICore.adjustX fp x r f o vw
      = (replaceFirstS fp "left" "right", r.right + o) := by
  simp [FloatingUICore.adjustX, FloatingUICore.padding, h1, h2]

/-- Helper: right-edge clamp of the horizontal boundary block. -/
theorem adjustX_clamp_right (fp : String) (x : ℚ) (r f : Rect) (o vw : ℚ)
    (h1 : ¬ x < 5) (h2 : x + f.width > vw - 5) (h3 : includesS fp "right" = false) :
    FloatingUICore.adjustX fp x r f o vw = (fp, vw - f.width - 5) := by
  simp [FloatingUICore.adjustX, FloatingUICore.padding, h1, h2, h3]

/-- Helper: right-edge flip of the horizontal boundary block. -/
theorem adjustX_flip_right (fp : String) (x : ℚ) (r f : Rect) (o vw : ℚ)
    (h1 : ¬ x < 5) (h2 : x + f.width > vw - 5) (h3 : includesS fp "right" = true) :
    FloatingUICore.adjustX fp x r f o vw
      = (replaceFirstS fp "right" "left", r.left - f.width - o) := by
  simp [FloatingUICore.adjustX, FloatingUICore.padding, h1, h2, h3]

/-- Helper: no horizontal overflow leaves `x` unchanged. -/
theorem adjustX_id (fp : String) (x : ℚ) (r f : Rect) (o vw : ℚ)
    (h1 : ¬ x < 5) (h2 : ¬ x + f.width > vw - 5) :
    FloatingUICore.adjustX fp x r f o vw = (fp, x) := by
  simp [FloatingUICore.adjustX, FloatingUICore.padding, h1, h2]

/-- Helper: top-edge clamp of the vertical boundary block. -/
theorem adjustY_clamp_top (fp : String) (y : ℚ) (r f : Rect) (o vh : ℚ)
    (h1 : y < 5) (h2 : includesS fp "top" = false) :
    FloatingUICore.adjustY fp y r f o vh = (fp, 5) := by
  simp [FloatingUICore.adjustY, FloatingUICore.padding, h1, h2]

/-- Helper: top-edge flip of the vertical boundary block. -/
theorem adjustY_flip_top (fp : String) (y : ℚ) (r f : Rect) (o vh : ℚ)
    (h1 : y < 5) (h2 : includesS fp "top" = true) :
    FloatingUICore.adjustY fp y r f o vh
      = (replaceFirstS fp "top" "bottom", r.bottom + o) := by
  simp [FloatingUICore.adjustY, FloatingUICore.padding, h1, h2]

/-- Helper: bottom-edge clamp of the vertical boundary block. -/
theorem adjustY_clamp_bottom (fp : String) (y : ℚ) (r f : Rect) (o vh : ℚ)
    (h1 : ¬ y < 5) (h2 : y + f.height > vh - 5) (h3 : includesS fp "bottom" = false) :
    FloatingUICore.adjustY fp y r f o vh = (fp, vh - f.height - 5) := by
  simp [FloatingUICore.adjustY, FloatingUICore.padding, h1, h2, h3]

/-- Helper: bottom-edge flip of the vertical boundary block. -/
theorem adjustY_flip_bottom (fp : String) (y : ℚ) (r f : Rect) (o vh : ℚ)
    (h1 : ¬ y < 5) (h2 : y + f.height > vh - 5) (h3 : includesS fp "bottom" = true) :
    FloatingUICore.adjustY fp y r f o vh
      = (replaceFirstS fp "bottom" "top", r.top - f.height - o) := by
  simp [FloatingUICore.adjustY, FloatingUICore.padding, h1, h2, h3]

/-- Helper: no vertical overflow leaves `y` unchanged. -/
theorem adjustY_id (fp : String) (y : ℚ) (r f : Rect) (o vh : ℚ)
    (h1 : ¬ y < 5) (h2 : ¬ y + f.height > vh - 5) :
    FloatingUICore.adjustY fp y r f o vh = (fp, y) := by
  simp [FloatingUICore.adjustY, FloatingUICore.padding, h1, h2]

/-- Helper: `computePosition` as the composition of the base position and the
two per-axis boundary blocks plus the scroll offset. -/
theorem computePosition_eq (p : String) (o : ℚ) (r f : Rect) (vw vh sx sy : ℚ) :
    FloatingUICore.computePosition p o r f vw vh sx sy =
      ((FloatingUICore.adjustX (FloatingUICore.basePosition p r f o).1
          (FloatingUICore.basePosition p r f o).2.1 r f o vw).2 + sx,
       (FloatingUICore.adjustY
          (FloatingUICore.adjustX (FloatingUICore.basePosition p r f o).1
            (FloatingUICore.basePosition p r f o).2.1 r f o vw).1
          (FloatingUICore.basePosition p r f o).2.2 r f o vh).2 + sy) := rfl

/-- C9: viewport handling of the geometry engine — on overflow of an edge
whose direction name does not occur in the (final) placement string the
coordinate is clamped to padding = 5 from that edge; when the direction does
occur, the placement is flipped and the coordinate recomputed; the two axes
are handled independently (the vertical block sees the placement produced by
the horizontal block), and each final coordinate then receives the scroll
offset. -/
theorem computePosition_clamp_flip (p : String) (o : ℚ) (r f : Rect)
    (vw vh sx sy : ℚ) :
    ((FloatingUICore.basePosition p r f o).2.1 < 5 →
      includesS (FloatingUICore.basePosition p r f o).1 "left" = false →
      (FloatingUICore.computePosition p o r f vw vh sx sy).1 = 5 + sx) ∧
    ((FloatingUICore.basePosition p r f o).2.1 < 5 →
      includesS (FloatingUICore.basePosition p r f o).1 "left" = true →
      (FloatingUICore.computePosition p o r f vw vh sx sy).1 = r.right + o + sx) ∧
    (¬ (FloatingUICore.basePosition p r f o).2.1 < 5 →
      (FloatingUICore.basePosition p r f o).2.1 + f.width > vw - 5 →
      includesS (FloatingUICore.basePosition p r f o).1 "right" = false →
      (FloatingUICore.computePosition p o r f vw vh sx sy).1
        = vw - f.width - 5 + sx) ∧
    (¬ (FloatingUICore.basePosition p r f o).2.1 < 5 →
      (FloatingUICore.basePosition p r f o).2.1 + f.width > vw - 5 →
      includesS (FloatingUICore.basePosition p r f o).1 "right" = true →
      (FloatingUICore.computePosition p o r f vw vh sx sy).1
        = r.left - f.width - o + sx) ∧
    (¬ (FloatingUICore.basePosition p r f o).2.1 < 5 →
      ¬ (FloatingUICore.basePosition p r f o).2.1 + f.width > vw - 5 →
      (FloatingUICore.computePosition p o r f vw vh sx sy).1
        = (FloatingUICore.basePosition p r f o).2.1 + sx) ∧
    ((FloatingUICore.basePosition p r f o).2.2 < 5 →
      includesS (FloatingUICore.adjustX (FloatingUICore.basePosition p r f o).1
        (FloatingUICore.basePosition p r f o).2.1 r f o vw).1 "top" = false →
      (FloatingUICore.computePosition p o r f vw vh sx sy).2 = 5 + sy) ∧
    ((FloatingUICore.basePosition p r f o).2.2 < 5 →
      includesS (FloatingUICore.adjustX (FloatingUICore.basePosition p r f o).1
        (FloatingUICore.basePosition p r f o).2.1 r f o vw).1 "top" = true →
      (FloatingUICore.computePosition p o r f vw vh sx sy).2 = r.bottom + o + sy) ∧
    (¬ (FloatingUICore.basePosition p r f o).2.2 < 5 →
      (FloatingUICore.basePosition p r f o).2.2 + f.height > vh - 5 →
      includesS (FloatingUICore.adjustX (FloatingUICore.basePosition p r f o).1
        (FloatingUICore.basePosition p r f o).2.1 r f o vw).1 "bottom" = false →
      (FloatingUICore.computePosition p o r f vw vh sx sy).2
        = vh - f.height - 5 + sy) ∧
    (¬ (FloatingUICore.basePosition p r f o).2.2 < 5 →
      (FloatingUICore.basePosition p r f o).2.2 + f.height > vh - 5 →
      includesS (FloatingUICore.adjustX (FloatingUICore.basePosition p r f o).1
        (FloatingUICore.basePosition p r f o).2.1 r f o vw).1 "bottom" = true →
      (FloatingUICore.computePosition p o r f vw vh sx sy).2
        = r.top - f.height - o + sy) ∧
    (¬ (FloatingUICore.basePosition p r f o).2.2 < 5 →
      ¬ (FloatingUICore.basePosition p r f o).2.2 + f.height > vh - 5 →
      (FloatingUICore.computePosition p o r f vw vh sx sy).2
        = (FloatingUICore.basePosition p r f o).2.2 + sy) := by
  refine ⟨?_, ?_, ?_, ?_, ?_, ?_, ?_, ?_, ?_, ?_⟩
  · intro h1 h2
    rw [computePosition_eq, adjustX_clamp_left _ _ _ _ _ _ h1 h2]
  · intro h1 h2
    rw [computePosition_eq, adjustX_flip_left _ _ _ _ _ _ h1 h2]
  · intro h1 h2 h3
    rw [computePosition_eq, adjustX_clamp_right _ _ _ _ _ _ h1 h2 h3]
  · intro h1 h2 h3
    rw [computePosition_eq, adjustX_flip_right _ _ _ _ _ _ h1 h2 h3]
  · intro h1 h2
    rw [computePosition_eq, adjustX_id _ _ _ _ _ _ h1 h2]
  · intro h1 h2
    rw [computePosition_eq, adjustY_clamp_top _ _ _ _ _ _ h1 h2]
  · intro h1 h2
    rw [computePosition_eq, adjustY_flip_top _ _ _ _ _ _ h1 h2]
  · intro h1 h2 h3
    rw [computePosition_eq, adjustY_clamp_bottom _ _ _ _ _ _ h1 h2 h3]
  · intro h1 h2 h3
    rw [computePosition_eq, adjustY_flip_bottom _ _ _ _ _ _ h1 h2 h3]
  · intro h1 h2
    rw [computePosition_eq, adjustY_id _ _ _ _ _ _ h1 h2]

/-- C9 witness: with the reference pinned to the top edge, placement `"top"`
(whose name contains the overflowed direction) flips to below the reference
(y = 40 + 10 = 50); with the reference pinned to the left edge and placement
`"top"` (whose name does not contain `"left"`), x is clamped to 5. -/
theorem computePosition_clamp_flip_witness :
    (FloatingUICore.computePosition "top" 10 ⟨100, 10, 200, 40⟩ ⟨0, 0, 50, 20⟩
      1024 768 0 0).2 = 50 ∧
    (FloatingUICore.computePosition "top" 10 ⟨0, 100, 40, 130⟩ ⟨0, 0, 50, 20⟩
      1024 768 0 0).1 = 5 := by
  have hb1 : FloatingUICore.basePosition "top" ⟨100, 10, 200, 40⟩ ⟨0, 0, 50, 20⟩ 10
      = ("top", 125, -20) := by
    show ("top", (100 : ℚ) + (((200 : ℚ) - 100) - ((50 : ℚ) - 0)) / 2,
      (10 : ℚ) - ((20 : ℚ) - 0) - 10) = ("top", 125, -20)
    norm_num
  have hax1 : FloatingUICore.adjustX "top" 125 ⟨100, 10, 200, 40⟩ ⟨0, 0, 50, 20⟩ 10 1024
      = ("top", 125) := by
    unfold FloatingUICore.adjustX
    norm_num [FloatingUICore.padding, Rect.width]
  have hb2 : FloatingUICore.basePosition "top" ⟨0, 100, 40, 130⟩ ⟨0, 0, 50, 20⟩ 10
      = ("top", -5, 70) := by
    show ("top", (0 : ℚ) + (((40 : ℚ) - 0) - ((50 : ℚ) - 0)) / 2,
      (100 : ℚ) - ((20 : ℚ) - 0) - 10) = ("top", -5, 70)
    norm_num
  have h1 := computePosition_clamp_flip "top" 10 ⟨100, 10, 200, 40⟩ ⟨0, 0, 50, 20⟩
    1024 768 0 0
  have h2 := computePosition_clamp_flip "top" 10 ⟨0, 100, 40, 130⟩ ⟨0, 0, 50, 20⟩
    1024 768 0 0
  constructor
  · have e := h1.2.2.2.2.2.2.1 (by rw [hb1]; norm_num)
      (by simp only [hb1]; rw [hax1]; decide)
    rw [e]
    norm_num
  · have e := h2.1 (by rw [hb2]; norm_num) (by simp only [hb2]; decide)
    rw [e]
    norm_num

/-- C1: the viewport-flip policy — the emitted fallback lists follow the
documented per-placement order for all 12 placements, and the selection
(modelled from the spec, since the first-fit loop is the browser's native
`position-try` behaviour) keeps a fitting primary position, picks the first
fitting candidate of the placement's fallback list otherwise, and returns the
primary placement's position unchanged when no candidate fits. -/
theorem positionTryOptions_policy (placement p : String) (l1 l2 : List String)
    (r f : Rect) (o vw vh pad : ℚ) :
    (getPositionTryOptions "top" = "flip-bottom, flip-left, flip-right" ∧
     getPositionTryOptions "top-start"
       = "flip-bottom-start, flip-top-end, flip-bottom-end" ∧
     getPositionTryOptions "top-end"
       = "flip-bottom-end, flip-top-start, flip-bottom-start" ∧
     getPositionTryOptions "bottom" = "flip-top, flip-left, flip-right" ∧
     getPositionTryOptions "bottom-start"
       = "flip-top-start, flip-bottom-end, flip-top-end" ∧
     getPositionTryOptions "bottom-end"
       = "flip-top-end, flip-bottom-start, flip-top-start" ∧
     getPositionTryOptions "left" = "flip-right, flip-top, flip-bottom" ∧
     getPositionTryOptions "left-start"
       = "flip-right-start, flip-left-end, flip-right-end" ∧
     getPositionTryOptions "left-end"
       = "flip-right-end, flip-left-start, flip-right-start" ∧
     getPositionTryOptions "right" = "flip-left, flip-top, flip-bottom" ∧
     getPositionTryOptions "right-start"
       = "flip-left-start, flip-right-end, flip-left-end" ∧
     getPositionTryOptions "right-end"
       = "flip-left-end, flip-right-start, flip-left-start") ∧
    (fits (posOf placement r f o).1 (posOf placement r f o).2 f vw vh pad = true →
      positionWithFallback placement r f o vw vh pad = posOf placement r f o) ∧
    (fits (posOf placement r f o).1 (posOf placement r f o).2 f vw vh pad = false →
      (∀ q ∈ fallbacksFor placement,
        fits (posOf q r f o).1 (posOf q r f o).2 f vw vh pad = false) →
      positionWithFallback placement r f o vw vh pad = posOf placement r f o) ∧
    (fits (posOf placement r f o).1 (posOf placement r f o).2 f vw vh pad = false →
      fallbacksFor placement = l1 ++ p :: l2 →
      (∀ q ∈ l1, fits (posOf q r f o).1 (posOf q r f o).2 f vw vh pad = false) →
      fits (posOf p r f o).1 (posOf p r f o).2 f vw vh pad = true →
      positionWithFallback placement r f o vw vh pad = posOf p r f o) := by
  refine ⟨by decide, ?_, ?_, ?_⟩
  · intro h
    simp [positionWithFallback, h]
  · intro h hall
    have hn : (fallbacksFor placement).find? (fun q =>
        fits (posOf q r f o).1 (posOf q r f o).2 f vw vh pad) = none :=
      List.find?_eq_none.mpr (fun q hq => by simp [hall q hq])
    simp [positionWithFallback, h, hn]
  · intro h hl hall hp
    have h1 : l1.find? (fun q =>
        fits (posOf q r f o).1 (posOf q r f o).2 f vw vh pad) = none :=
      List.find?_eq_none.mpr (fun q hq => by simp [hall q hq])
    have h2 : (p :: l2).find? (fun q =>
        fits (posOf q r f o).1 (posOf q r f o).2 f vw vh pad) = some p :=
      List.find?_cons_of_pos _ hp
    simp [positionWithFallback, h, hl, List.find?_append, h1, h2]

/-- C1 witness: a reference pinned to the top edge makes the primary
placement `"top"` overflow; the first fallback candidate `"bottom"` fits and
is selected, giving position (125, 50). -/
theorem positionTryOptions_policy_witness :
    positionWithFallback "top" ⟨100, 10, 200, 40⟩ ⟨0, 0, 50, 20⟩ 10 1024 768 5
      = (125, 50) := by
  have hp0 : posOf "top" ⟨100, 10, 200, 40⟩ ⟨0, 0, 50, 20⟩ 10 = (125, -20) := by
    show ((100 : ℚ) + (((200 : ℚ) - 100) - ((50 : ℚ) - 0)) / 2,
      (10 : ℚ) - ((20 : ℚ) - 0) - 10) = (125, -20)
    norm_num
  have hpb : posOf "bottom" ⟨100, 10, 200, 40⟩ ⟨0, 0, 50, 20⟩ 10 = (125, 50) := by
    show ((100 : ℚ) + (((200 : ℚ) - 100) - ((50 : ℚ) - 0)) / 2,
      (40 : ℚ) + 10) = (125, 50)
    norm_num
  have hfit0 : fits (125 : ℚ) (-20) ⟨0, 0, 50, 20⟩ 1024 768 5 = false := by
    norm_num [fits, Rect.width, Rect.height]
  have hfitb : fits (125 : ℚ) 50 ⟨0, 0, 50, 20⟩ 1024 768 5 = true := by
    norm_num [fits, Rect.width, Rect.height]
  have h := positionTryOptions_policy "top" "bottom" [] ["left", "right"]
    ⟨100, 10, 200, 40⟩ ⟨0, 0, 50, 20⟩ 10 1024 768 5
  have e := h.2.2.2 (by simp only [hp0]; exact hfit0) (by decide)
    (by simp) (by simp only [hpb]; exact hfitb)
  rw [e, hpb]

/-- C7: a missing or unresolvable target is a silent no-op — when the parsed
target string is empty, or no element resolves from the target selector,
`onLoad` returns the document unchanged (no element's style or id is
mutated), and being a total function it signals no failure. -/
theorem onLoad_noop (query : Dom → String → Option Nat) (cssSupports : Bool)
    (now : Nat) (rectOf : Nat → Rect) (ctx : UnitCtx) (sx sy : ℚ)
    (el : Nat) (v : String) (d : Dom) :
    ((parseAnchorConfig (d.elems.getD el defaultElem).attrs v).target = "" →
      onLoad query cssSupports now rectOf ctx sx sy el v d = d) ∧
    ((parseAnchorConfig (d.elems.getD el defaultElem).attrs v).target ≠ "" →
      resolveTarget query d
        (parseAnchorConfig (d.elems.getD el defaultElem).attrs v).target = none →
      onLoad query cssSupports now rectOf ctx sx sy el v d = d) := by
  constructor
  · intro h
    simp only [onLoad]
    rw [if_pos h]
  · intro h hr
    simp only [onLoad]
    rw [if_neg h, hr]

/-- C7 witness: with a single element whose selector resolves to nothing, both
error paths (empty target from value `''`, unresolvable target `#nope`)
return the document unchanged. -/
theorem onLoad_noop_witness :
    onLoad (fun _ _ => none) true 0 (fun _ => ⟨0, 0, 0, 0⟩) ⟨16, 16, 1024, 768⟩
      0 0 0 "''" ⟨[⟨"f", ⟨none, none, none⟩, []⟩]⟩
      = ⟨[⟨"f", ⟨none, none, none⟩, []⟩]⟩ ∧
    onLoad (fun _ _ => none) true 0 (fun _ => ⟨0, 0, 0, 0⟩) ⟨16, 16, 1024, 768⟩
      0 0 0 "'#nope'" ⟨[⟨"f", ⟨none, none, none⟩, []⟩]⟩
      = ⟨[⟨"f", ⟨none, none, none⟩, []⟩]⟩ := by
  have h1 := onLoad_noop (fun _ _ => none) true 0 (fun _ => ⟨0, 0, 0, 0⟩)
    ⟨16, 16, 1024, 768⟩ 0 0 0 "''" ⟨[⟨"f", ⟨none, none, none⟩, []⟩]⟩
  have h2 := onLoad_noop (fun _ _ => none) true 0 (fun _ => ⟨0, 0, 0, 0⟩)
    ⟨16, 16, 1024, 768⟩ 0 0 0 "'#nope'" ⟨[⟨"f", ⟨none, none, none⟩, []⟩]⟩
  exact ⟨h1.1 (by decide), h2.2 (by decide) (by decide)⟩
